import Mathlib

/-!
Verification development for the finplanner.ai pipeline orchestration core.

The Python sources under backend/app are shallowly embedded below.
Numeric values (Python floats used for monetary amounts, scores and
percentages) are modelled as rationals; all inputs of interest are exact
decimal values, so the arithmetic agrees with the source.  The external
reasoning capability (the LLM) and the standard-library JSON decoder
`json.loads` are collaborators outside the repository: each stage's call to
`_invoke_llm` followed by `json.loads` is modelled by an oracle value of type
`StageLLM` that is either a raised invoker error, a JSON decode failure, or a
parsed JSON document.  The string-level invoker `_invoke_llm` itself is also
embedded directly (`invoke_llm`) for the claims about response cleaning and
fallback behaviour.  Library validation error texts (pydantic messages) are
abstracted by a fixed string `validation_msg`; no property below depends on
their exact wording.  Pydantic's numeric coercion is modelled for JSON
numbers and booleans; coercion of numeric strings is not modelled and no
property below depends on it.
-/

namespace FinPlanner

/-- Python `str.isspace` characters relevant to `str.strip` and `\s`. -/
def py_is_space (c : Char) : Bool :=
  c == ' ' || c == '\t' || c == '\n' || c == '\r' || c == '\x0b' || c == '\x0c'

/-- Python `str.strip()` on a character list. -/
def py_strip_list (l : List Char) : List Char :=
  ((l.dropWhile py_is_space).reverse.dropWhile py_is_space).reverse

/-- Python `str.strip()`. -/
def py_strip (s : String) : String :=
  String.mk (py_strip_list s.toList)

/-- Python `str.lower()` (ASCII case folding suffices for the marker strings). -/
def to_lower_str (s : String) : String :=
  String.mk (s.toList.map Char.toLower)

/-- Does `hay` start with `needle`? -/
def starts_with_b (needle hay : List Char) : Bool :=
  match needle, hay with
  | [], _ => true
  | _ :: _, [] => false
  | n :: ns, h :: hs => n == h && starts_with_b ns hs

/-- Python substring containment `needle in hay`. -/
def contains_sub_b (needle : List Char) : List Char → Bool
  | [] => starts_with_b needle []
  | c :: hs => starts_with_b needle (c :: hs) || contains_sub_b needle hs

/-- Python `keyword in error.lower()` (the keywords in main.py are lowercase). -/
def contains_lower (e k : String) : Bool :=
  contains_sub_b k.toList (to_lower_str e).toList

/-- The backquote character of a markdown code fence. -/
def btick : Char := Char.ofNat 96

/-- Scanner for the tail of `^```(?:json)?\s*\n`: consume the greedy
whitespace run up to and including its last newline (regex backtracking
semantics of `\s*` followed by a mandatory `\n`). -/
def after_nl_go : List Char → Option (List Char) → Option (List Char)
  | [], acc => acc
  | c :: cs, acc =>
      if py_is_space c then after_nl_go cs (if c == '\n' then some cs else acc)
      else acc

/-- Remainder after the last newline inside the maximal whitespace run,
`none` when the run has no newline. -/
def after_last_nl_in_ws (l : List Char) : Option (List Char) :=
  after_nl_go l none

/-- Scanner for the tail of `\n```\s*$` under `re.MULTILINE`: greedy
whitespace followed by end-of-string or a (not consumed) newline. -/
def ws_eol_go : List Char → Option (List Char) → Option (List Char)
  | [], _ => some []
  | c :: cs, best =>
      if py_is_space c then ws_eol_go cs (if c == '\n' then some (c :: cs) else best)
      else best

/-- Remainder after a `\s*$` match at this position, `none` when no match. -/
def ws_eol_remainder (l : List Char) : Option (List Char) :=
  ws_eol_go l none

/-- Match `` ```(?:json)?\s*\n `` at the head of `l` (which must already be at
a line start); returns the rest of the input after the match. -/
def match_open_fence (l : List Char) : Option (List Char) :=
  match l with
  | c1 :: c2 :: c3 :: rest =>
      if c1 == btick && c2 == btick && c3 == btick then
        match rest with
        | 'j' :: 's' :: 'o' :: 'n' :: rest2 =>
            match after_last_nl_in_ws rest2 with
            | some r => some r
            | none => after_last_nl_in_ws rest
        | _ => after_last_nl_in_ws rest
      else none
  | _ => none

/-- Match `` \n```\s*$ `` at the head of `l`; returns the rest of the input
after the match (a trailing newline is not consumed, `$` is zero width). -/
def match_close_fence (l : List Char) : Option (List Char) :=
  match l with
  | c0 :: c1 :: c2 :: c3 :: rest =>
      if c0 == '\n' && c1 == btick && c2 == btick && c3 == btick then
        ws_eol_remainder rest
      else none
  | _ => none

/-- Left-to-right non-overlapping removal of opening fences
(`re.sub(r'^```(?:json)?\s*\n', '', response, flags=re.MULTILINE)`).
The fuel argument bounds the recursion; each step strictly shortens the
input, so `length + 1` fuel always suffices. -/
def strip_open_go : Nat → Bool → List Char → List Char
  | 0, _, l => l
  | _ + 1, _, [] => []
  | fuel + 1, at_start, c :: cs =>
      if at_start then
        match match_open_fence (c :: cs) with
        | some rest => strip_open_go fuel true rest
        | none => c :: strip_open_go fuel (c == '\n') cs
      else c :: strip_open_go fuel (c == '\n') cs

/-- Left-to-right non-overlapping removal of closing fences
(`re.sub(r'\n```\s*$', '', response, flags=re.MULTILINE)`). -/
def strip_close_go : Nat → List Char → List Char
  | 0, l => l
  | _ + 1, [] => []
  | fuel + 1, c :: cs =>
      match match_close_fence (c :: cs) with
      | some rest => strip_close_go fuel rest
      | none => c :: strip_close_go fuel cs

/-- `BaseFinancialAgent._clean_llm_response`: drop markdown code fences, then
strip surrounding whitespace. -/
def clean_llm_response (s : String) : String :=
  let l1 := strip_open_go (s.toList.length + 1) true s.toList
  let l2 := strip_close_go (l1.length + 1) l1
  String.mk (py_strip_list l2)

/-- Outcome of one external capability call, as observed by `_invoke_llm`. -/
inductive LLMOutcome where
  | success (content : String)
  | timeoutFail
  | transportFail (msg : String)

/-- The wrapped message of the exception re-raised at the end of
`_invoke_llm`: `f"LLM call failed in {self.name}: {str(e)}"`. -/
def llm_fail_msg (name m : String) : String :=
  "LLM call failed in " ++ name ++ ": " ++ m

/-- `BaseFinancialAgent._invoke_llm`: check the credential, run the call
under the deadline, reject blank raw responses, clean and return the text;
every failure is re-raised (modelled as `Except.error`). -/
def invoke_llm (name : String) (api_key_present : Bool) (o : LLMOutcome) :
    Except String String :=
  if !api_key_present then
    Except.error (llm_fail_msg name "Google API key not configured")
  else
    match o with
    | LLMOutcome.timeoutFail =>
        Except.error (llm_fail_msg name "LLM call timed out after 30 seconds")
    | LLMOutcome.transportFail m => Except.error (llm_fail_msg name m)
    | LLMOutcome.success content =>
        if content == "" || py_strip content == "" then
          Except.error (llm_fail_msg name "LLM returned empty response")
        else
          Except.ok (clean_llm_response content)

/-- `BaseFinancialAgent._get_fallback_response`: the stage-named canned JSON
payloads (defined in the source but never called by `_invoke_llm`). -/
def get_fallback_response (name : String) : String :=
  if name == "cas_parser" then
    "\x7b\"holdings\": [], \"total_value\": 0, \"parsing_errors\": [\"LLM unavailable - using mock data\"]\x7d"
  else if name == "portfolio_analyzer" then
    "\x7b\"diversification_score\": 5.0, \"concentration_risks\": [\"LLM unavailable\"], \"key_insights\": [\"Please configure Google API key\"]\x7d"
  else if name == "market_outlook" then
    "\x7b\"market_sentiment\": \"neutral\", \"sector_outlook\": \x7b\x7d, \"key_trends\": [\"LLM unavailable\"]\x7d"
  else if name == "risk_profiler" then
    "\x7b\"risk_tolerance\": \"moderate\", \"risk_score\": 5.0, \"investment_horizon\": \"medium\"\x7d"
  else if name == "financial_advisor" then
    "\x7b\"asset_rebalancing\": [\"Configure Google API key for recommendations\"], \"sector_adjustments\": [], \"investment_suggestions\": [], \"risk_warnings\": [], \"action_items\": []\x7d"
  else
    "\x7b\"status\": \"fallback\", \"message\": \"LLM unavailable\"\x7d"

/-- Parsed JSON documents, as produced by `json.loads` (dicts are modelled as
insertion-ordered association lists with unique keys). -/
inductive Json where
  | null
  | bool (b : Bool)
  | num (q : ℚ)
  | str (s : String)
  | arr (items : List Json)
  | obj (fields : List (String × Json))

/-- Python `dict.get(key, default)` on a parsed JSON object. -/
def dict_get_d (fs : List (String × Json)) (key : String) (dflt : Json) : Json :=
  match fs.lookup key with
  | some v => v
  | none => dflt

/-- Pydantic coercion into a `float` field (numbers and booleans). -/
def coerce_float : Json → Option ℚ
  | Json.num q => some q
  | Json.bool b => some (if b then 1 else 0)
  | _ => none

/-- Pydantic coercion into a `str` field. -/
def coerce_str : Json → Option String
  | Json.str s => some s
  | _ => none

/-- Pydantic coercion into a `List[str]` field. -/
def coerce_str_list : Json → Option (List String)
  | Json.arr items => items.mapM coerce_str
  | _ => none

/-- Pydantic coercion into a `Dict[str, str]` field. -/
def coerce_str_pairs : Json → Option (List (String × String))
  | Json.obj fs => fs.mapM (fun p => (coerce_str p.2).map (fun v => (p.1, v)))
  | _ => none

/-- Placeholder for library validation/exception message texts
(`str(e)` of pydantic or attribute errors); no property depends on it. -/
def validation_msg : String := "validation error"

/-- `state.Holding`. -/
structure Holding where
  symbol : String
  name : String
  quantity : ℚ
  current_value : ℚ
  sector : Option String := none
  asset_type : String
deriving DecidableEq

/-- `state.PortfolioData`. -/
structure PortfolioData where
  holdings : List Holding := []
  total_value : ℚ := 0
  asset_allocation : List (String × ℚ) := []
  sector_allocation : List (String × ℚ) := []
  analysis : Option Json := none

/-- `state.MarketData`. -/
structure MarketData where
  market_sentiment : String := "neutral"
  sector_outlook : List (String × String) := []
  market_indices : List (String × ℚ) := []
  last_updated : Option String := none
  analysis : Option Json := none

/-- `state.RiskProfile`. -/
structure RiskProfile where
  risk_tolerance : String := "moderate"
  investment_horizon : String := "medium"
  age_group : Option String := none
  income_stability : Option String := none
  score : ℚ := 0
  assessment : Option Json := none

/-- `state.Recommendations`. -/
structure Recommendations where
  asset_rebalancing : List String := []
  sector_adjustments : List String := []
  investment_suggestions : List String := []
  risk_warnings : List String := []
  action_items : List String := []
  detailed_advice : Option Json := none

/-- The dict built by `FinancialAdvisorAgent._generate_final_report`,
with its nested keys flattened (`ps_` = portfolio_summary, `ra_` =
risk_assessment, `mc_` = market_context). -/
structure FinalReport where
  ps_total_value : ℚ
  ps_asset_allocation : List (String × ℚ)
  ps_sector_allocation : List (String × ℚ)
  ps_holdings_count : Nat
  ra_risk_tolerance : String
  ra_risk_score : ℚ
  ra_investment_horizon : String
  mc_sentiment : String
  mc_last_updated : Option String
  recommendations_payload : Json
  next_steps : Json
  priority_actions : Json

/-- `state.FinancialState`, the Record threaded through the pipeline. -/
structure FinancialState where
  pdf_content : Option String := none
  user_responses : List (String × Json) := []
  portfolio : PortfolioData := {}
  market_data : MarketData := {}
  risk_profile : RiskProfile := {}
  recommendations : Recommendations := {}
  current_agent : String := "cas_parser"
  completed_agents : List String := []
  errors : List String := []
  analysis_complete : Bool := false
  final_report : Option FinalReport := none

/-- `Holding(**holding)`: pydantic construction of one holding from a JSON
item (extra keys ignored, `sector` optional and nullable). -/
def parse_holding : Json → Option Holding
  | Json.obj fs => do
      let sym ← (fs.lookup "symbol").bind coerce_str
      let nm ← (fs.lookup "name").bind coerce_str
      let qty ← (fs.lookup "quantity").bind coerce_float
      let cv ← (fs.lookup "current_value").bind coerce_float
      let atype ← (fs.lookup "asset_type").bind coerce_str
      let sec ← match fs.lookup "sector" with
        | none => some none
        | some Json.null => some none
        | some v => (coerce_str v).map some
      some { symbol := sym, name := nm, quantity := qty, current_value := cv,
             sector := sec, asset_type := atype }
  | _ => none

/-- Insertion-ordered accumulation into a Python dict of running sums. -/
def add_to_alloc (acc : List (String × ℚ)) (key : String) (v : ℚ) :
    List (String × ℚ) :=
  if acc.any (fun p => p.1 == key) then
    acc.map (fun p => if p.1 == key then (p.1, p.2 + v) else p)
  else
    acc ++ [(key, v)]

/-- Fold a key/value stream into the dict of sums. -/
def accum_by_key (l : List (String × ℚ)) : List (String × ℚ) :=
  l.foldl (fun acc p => add_to_alloc acc p.1 p.2) []

/-- `CASParserAgent._calculate_asset_allocation`. -/
def calculate_asset_allocation (holdings : List Holding) : List (String × ℚ) :=
  if holdings = [] then []
  else
    let total_value := (holdings.map (fun h => h.current_value)).sum
    if total_value = 0 then []
    else
      (accum_by_key (holdings.map (fun h => (h.asset_type, h.current_value)))).map
        (fun p => (p.1, p.2 / total_value * 100))

/-- `CASParserAgent._calculate_sector_allocation` (equity-only denominator;
a holding contributes only when its asset type is equity and its sector is a
truthy string). -/
def calculate_sector_allocation (holdings : List Holding) : List (String × ℚ) :=
  if holdings = [] then []
  else
    let equity_value :=
      ((holdings.filter (fun h => h.asset_type == "equity")).map
        (fun h => h.current_value)).sum
    if equity_value = 0 then []
    else
      (accum_by_key (holdings.filterMap (fun h =>
        if h.asset_type == "equity" then
          match h.sector with
          | some sec => if sec == "" then none else some (sec, h.current_value)
          | none => none
        else none))).map
        (fun p => (p.1, p.2 / equity_value * 100))

/-- Oracle for one stage's `_invoke_llm` call composed with `json.loads`:
the invoker raised (`raiseErr` carries `str(e)`), the cleaned text failed to
decode (`badJson` carries the decoder message), or a document was parsed. -/
inductive StageLLM where
  | raiseErr (msg : String)
  | badJson (msg : String)
  | good (j : Json)

/-- Oracle for the market-outlook stage: its LLM call, the validated index
quotes from the market-data collaborator, and the wall-clock timestamp. -/
structure MarketOracle where
  llm : StageLLM
  indices : List (String × ℚ) := []
  ts : String := "now"

/-- The completed-list update performed by `_update_state`. -/
def update_completed (n : String) (l : List String) : List String :=
  if n ∈ l then l else l ++ [n]

/-- `BaseFinancialAgent._update_state`: append this agent's name unless it is
already present. -/
def update_state (n : String) (s : FinancialState) : FinancialState :=
  if n ∈ s.completed_agents then s
  else { s with completed_agents := s.completed_agents ++ [n] }

/-- Python truthiness test `not state.pdf_content`. -/
def pdf_missing (s : FinancialState) : Bool :=
  match s.pdf_content with
  | none => true
  | some t => t == ""

/-- Interpretation step of `CASParserAgent.process` on a decoded object:
convert items to holdings, read the reported total (default `0.0`). -/
def cas_interpret_obj (fs : List (String × Json)) : Except String (List Holding × ℚ) :=
  match dict_get_d fs "holdings" (Json.arr []) with
  | Json.arr items =>
      match items.mapM parse_holding with
      | some holdings =>
          match coerce_float (dict_get_d fs "total_value" (Json.num 0)) with
          | some tv => Except.ok (holdings, tv)
          | none => Except.error validation_msg
      | none => Except.error validation_msg
  | _ => Except.error validation_msg

/-- Interpretation step of `CASParserAgent.process` after `json.loads`
(a non-object document fails `.get` with an attribute error). -/
def cas_interpret (j : Json) : Except String (List Holding × ℚ) :=
  match j with
  | Json.obj fs => cas_interpret_obj fs
  | _ => Except.error validation_msg

/-- `CASParserAgent.process` before its final `_update_state`. -/
def cas_parser_body (b : StageLLM) (s : FinancialState) : FinancialState :=
  if pdf_missing s then
    { s with errors := s.errors ++ ["No PDF content provided for parsing"] }
  else
    match b with
    | StageLLM.raiseErr m =>
        { s with errors := s.errors ++ ["CAS parsing failed: " ++ m] }
    | StageLLM.badJson m =>
        { s with errors := s.errors ++ ["Failed to parse LLM response as JSON: " ++ m] }
    | StageLLM.good j =>
        match cas_interpret j with
        | Except.ok (holdings, tv) =>
            { s with portfolio :=
                { holdings := holdings, total_value := tv,
                  asset_allocation := calculate_asset_allocation holdings,
                  sector_allocation := calculate_sector_allocation holdings,
                  analysis := none } }
        | Except.error m =>
            { s with errors := s.errors ++ ["CAS parsing failed: " ++ m] }

/-- `CASParserAgent.process`. -/
def cas_parser_process (b : StageLLM) (s : FinancialState) : FinancialState :=
  update_state "cas_parser" (cas_parser_body b s)

/-- The deterministic default analysis written when no holdings are present. -/
def pa_no_holdings_analysis : Json :=
  Json.obj [("diversification_score", Json.num 5),
    ("concentration_risks", Json.arr [Json.str "No holdings data available"]),
    ("key_insights", Json.arr [Json.str "Upload a valid CAS file for detailed analysis"])]

/-- The fallback analysis substituted on a JSON decode failure. -/
def pa_invalid_json_analysis : Json :=
  Json.obj [("diversification_score", Json.num 5),
    ("concentration_risks", Json.arr [Json.str "LLM returned invalid JSON"]),
    ("key_insights", Json.arr [Json.str "Please configure proper API settings for detailed analysis"])]

/-- `PortfolioAnalyzerAgent.process` before its final `_update_state`. -/
def portfolio_analyzer_body (b : StageLLM) (s : FinancialState) : FinancialState :=
  if s.portfolio.holdings = [] then
    { s with portfolio := { s.portfolio with analysis := some pa_no_holdings_analysis } }
  else
    match b with
    | StageLLM.raiseErr m =>
        { s with errors := s.errors ++ ["Portfolio analysis failed: " ++ m] }
    | StageLLM.badJson _ =>
        { s with portfolio := { s.portfolio with analysis := some pa_invalid_json_analysis } }
    | StageLLM.good j =>
        { s with portfolio := { s.portfolio with analysis := some j } }

/-- `PortfolioAnalyzerAgent.process`. -/
def portfolio_analyzer_process (b : StageLLM) (s : FinancialState) : FinancialState :=
  update_state "portfolio_analyzer" (portfolio_analyzer_body b s)

/-- The fallback market analysis substituted on a JSON decode failure. -/
def mo_invalid_json_analysis : Json :=
  Json.obj [("market_sentiment", Json.str "neutral"),
    ("sector_outlook", Json.obj [("IT", Json.str "Mixed performance"),
      ("Banking", Json.str "Stable")]),
    ("key_trends", Json.arr [Json.str "LLM returned invalid JSON - using fallback data"])]

/-- The `except` branch of `MarketOutlookAgent.process`: append the error and
substitute an empty `MarketData`. -/
def market_failure (m : MarketOracle) (s : FinancialState) (msg : String) :
    FinancialState :=
  { s with
    errors := s.errors ++ ["Market analysis failed: " ++ msg],
    market_data :=
      { market_sentiment := "neutral", sector_outlook := [],
        market_indices := [], last_updated := some m.ts, analysis := none } }

/-- Store a (possibly fallback) market analysis document in the Record. -/
def market_outlook_apply (m : MarketOracle) (s : FinancialState) (j : Json) :
    FinancialState :=
  match j with
  | Json.obj fs =>
      match coerce_str (dict_get_d fs "market_sentiment" (Json.str "neutral")),
            coerce_str_pairs (dict_get_d fs "sector_outlook" (Json.obj [])) with
      | some sentiment, some so =>
          { s with market_data :=
              { market_sentiment := sentiment, sector_outlook := so,
                market_indices := m.indices, last_updated := some m.ts,
                analysis := some j } }
      | _, _ => market_failure m s validation_msg
  | _ => market_failure m s validation_msg

/-- `MarketOutlookAgent.process` before its final `_update_state`. -/
def market_outlook_body (m : MarketOracle) (s : FinancialState) : FinancialState :=
  match m.llm with
  | StageLLM.raiseErr msg => market_failure m s msg
  | StageLLM.badJson _ => market_outlook_apply m s mo_invalid_json_analysis
  | StageLLM.good j => market_outlook_apply m s j

/-- `MarketOutlookAgent.process`. -/
def market_outlook_process (m : MarketOracle) (s : FinancialState) : FinancialState :=
  update_state "market_outlook" (market_outlook_body m s)

/-- The fallback assessment substituted on a JSON decode failure. -/
def risk_invalid_json_assessment : Json :=
  Json.obj [("risk_tolerance", Json.str "moderate"), ("risk_score", Json.num 5),
    ("investment_horizon", Json.str "medium"),
    ("profile_analysis", Json.obj [("note", Json.str "LLM returned invalid JSON - using default profile")])]

/-- The fallback profile built in the `except` branches of
`RiskProfilerAgent.process`. -/
def fallback_risk_profile : RiskProfile :=
  { risk_tolerance := "moderate", investment_horizon := "medium",
    age_group := none, income_stability := none, score := 5, assessment := none }

/-- `RiskProfile(risk_tolerance=..., investment_horizon=..., score=...)` from
an assessment document: `.get` with the source defaults, pydantic coercion. -/
def build_risk_profile (a : Json) : Option RiskProfile :=
  match a with
  | Json.obj fs => do
      let tol ← coerce_str (dict_get_d fs "risk_tolerance" (Json.str "moderate"))
      let hor ← coerce_str (dict_get_d fs "investment_horizon" (Json.str "medium"))
      let sc ← coerce_float (dict_get_d fs "risk_score" (Json.num 5))
      some { risk_tolerance := tol, investment_horizon := hor, age_group := none,
             income_stability := none, score := sc, assessment := none }
  | _ => none

/-- Store a (possibly fallback) assessment in the Record; a construction
failure lands in the `except` branch with the fallback profile. -/
def risk_apply_assessment (s : FinancialState) (a : Json) : FinancialState :=
  match build_risk_profile a with
  | some rp => { s with risk_profile := { rp with assessment := some a } }
  | none =>
      { s with
        errors := s.errors ++ ["Risk profiling failed: " ++ validation_msg],
        risk_profile := fallback_risk_profile }

/-- `RiskProfilerAgent.process` before its final `_update_state`. -/
def risk_profiler_body (b : StageLLM) (s : FinancialState) : FinancialState :=
  match b with
  | StageLLM.raiseErr m =>
      { s with
        errors := s.errors ++ ["Risk profiling failed: " ++ m],
        risk_profile := fallback_risk_profile }
  | StageLLM.badJson _ => risk_apply_assessment s risk_invalid_json_assessment
  | StageLLM.good j => risk_apply_assessment s j

/-- `RiskProfilerAgent.process`. -/
def risk_profiler_process (b : StageLLM) (s : FinancialState) : FinancialState :=
  update_state "risk_profiler" (risk_profiler_body b s)

/-- `FinancialAdvisorAgent._generate_final_report`; `none` models the
`AttributeError` raised when `priority_score` is present but not a dict. -/
def generate_final_report (s : FinancialState) (fs : List (String × Json)) :
    Option FinalReport :=
  match dict_get_d fs "priority_score" (Json.obj []) with
  | Json.obj pfs =>
      some { ps_total_value := s.portfolio.total_value,
             ps_asset_allocation := s.portfolio.asset_allocation,
             ps_sector_allocation := s.portfolio.sector_allocation,
             ps_holdings_count := s.portfolio.holdings.length,
             ra_risk_tolerance := s.risk_profile.risk_tolerance,
             ra_risk_score := s.risk_profile.score,
             ra_investment_horizon := s.risk_profile.investment_horizon,
             mc_sentiment := s.market_data.market_sentiment,
             mc_last_updated := s.market_data.last_updated,
             recommendations_payload := Json.obj fs,
             next_steps := dict_get_d fs "action_items" (Json.arr []),
             priority_actions := dict_get_d pfs "high" (Json.arr []) }
  | _ => none

/-- `FinancialAdvisorAgent._get_fallback_recommendations`. -/
def advisor_fallback_recommendations : Recommendations :=
  { asset_rebalancing := ["Consider rebalancing portfolio for better diversification",
      "Review asset allocation based on risk tolerance"],
    sector_adjustments := ["Diversify across multiple sectors",
      "Avoid concentration in single sector"],
    investment_suggestions := ["Consider systematic investment plans (SIPs)",
      "Explore debt instruments for stability"],
    risk_warnings := ["Monitor portfolio concentration risks",
      "Keep emergency fund separate from investments"],
    action_items := ["Review portfolio monthly", "Consult with financial advisor",
      "Stay updated with market conditions"],
    detailed_advice := none }

/-- The fallback advice substituted on a JSON decode failure. -/
def advisor_invalid_json_advice : Json :=
  Json.obj [("asset_rebalancing", Json.arr [Json.str "LLM returned invalid JSON - please configure API properly"]),
    ("sector_adjustments", Json.arr [Json.str "Review portfolio diversification"]),
    ("investment_suggestions", Json.arr [Json.str "Consider systematic investment plans"]),
    ("risk_warnings", Json.arr [Json.str "Monitor portfolio concentration"]),
    ("action_items", Json.arr [Json.str "Set up proper Google API key for detailed recommendations"])]

/-- The `except` branch of `FinancialAdvisorAgent.process`: append the error
and substitute the fixed conservative recommendation set. -/
def financial_advisor_failure (s : FinancialState) (msg : String) : FinancialState :=
  { s with
    errors := s.errors ++ ["Financial advice generation failed: " ++ msg],
    recommendations := advisor_fallback_recommendations }

/-- Apply a (possibly fallback) advice document: build the recommendation
lists, generate the final report, and set the completion flag. -/
def financial_advisor_apply (s : FinancialState) (j : Json) : FinancialState :=
  match j with
  | Json.obj fs =>
      match coerce_str_list (dict_get_d fs "asset_rebalancing" (Json.arr [])),
            coerce_str_list (dict_get_d fs "sector_adjustments" (Json.arr [])),
            coerce_str_list (dict_get_d fs "investment_suggestions" (Json.arr [])),
            coerce_str_list (dict_get_d fs "risk_warnings" (Json.arr [])),
            coerce_str_list (dict_get_d fs "action_items" (Json.arr [])) with
      | some ar, some sa, some sug, some warn, some ai =>
          match generate_final_report s fs with
          | some rep =>
              { s with
                recommendations :=
                  { asset_rebalancing := ar, sector_adjustments := sa,
                    investment_suggestions := sug, risk_warnings := warn,
                    action_items := ai, detailed_advice := some j },
                final_report := some rep, analysis_complete := true }
          | none => financial_advisor_failure s validation_msg
      | _, _, _, _, _ => financial_advisor_failure s validation_msg
  | _ => financial_advisor_failure s validation_msg

/-- `FinancialAdvisorAgent.process` before its final `_update_state`. -/
def financial_advisor_body (b : StageLLM) (s : FinancialState) : FinancialState :=
  match b with
  | StageLLM.raiseErr m => financial_advisor_failure s m
  | StageLLM.badJson _ => financial_advisor_apply s advisor_invalid_json_advice
  | StageLLM.good j => financial_advisor_apply s j

/-- `FinancialAdvisorAgent.process`. -/
def financial_advisor_process (b : StageLLM) (s : FinancialState) : FinancialState :=
  update_state "financial_advisor" (financial_advisor_body b s)

/-- The Record created at the start of
`FinancialOrchestrator.process_financial_planning_sync`. -/
def initial_state (pdf_content : Option String)
    (user_responses : List (String × Json)) : FinancialState :=
  { pdf_content := pdf_content, user_responses := user_responses }

/-- The orchestrator's CAS-parser runner: set `current_agent`, then run
the agent. -/
def run_cas_parse (b : StageLLM) (s : FinancialState) : FinancialState :=
  cas_parser_process b { s with current_agent := "cas_parser" }

/-- `FinancialOrchestrator._run_portfolio_analyzer`. -/
def run_portfolio_analyzer (b : StageLLM) (s : FinancialState) : FinancialState :=
  portfolio_analyzer_process b { s with current_agent := "portfolio_analyzer" }

/-- `FinancialOrchestrator._run_market_outlook`. -/
def run_market_outlook (m : MarketOracle) (s : FinancialState) : FinancialState :=
  market_outlook_process m { s with current_agent := "market_outlook" }

/-- `FinancialOrchestrator._run_risk_profiler`. -/
def run_risk_profiler (b : StageLLM) (s : FinancialState) : FinancialState :=
  risk_profiler_process b { s with current_agent := "risk_profiler" }

/-- `FinancialOrchestrator._run_financial_advisor`. -/
def run_financial_advisor (b : StageLLM) (s : FinancialState) : FinancialState :=
  financial_advisor_process b { s with current_agent := "financial_advisor" }

/-- `FinancialOrchestrator.process_financial_planning_sync`: run the CAS
parser, then each later stage only while `errors` is empty, then set
`analysis_complete` unconditionally (as the source does on line 149). -/
def process_financial_planning_sync (b1 b2 : StageLLM) (m : MarketOracle)
    (b4 b5 : StageLLM) (pdf_content : Option String)
    (user_responses : List (String × Json)) : FinancialState :=
  let s0 := initial_state pdf_content user_responses
  let s1 := run_cas_parse b1 s0
  let s2 := if s1.errors = [] then run_portfolio_analyzer b2 s1 else s1
  let s3 := if s2.errors = [] then run_market_outlook m s2 else s2
  let s4 := if s3.errors = [] then run_risk_profiler b4 s3 else s3
  let s5 := if s4.errors = [] then run_financial_advisor b5 s4 else s4
  { s5 with analysis_complete := true }

/-- The Record after stage 1 of an unaborted run. -/
def stage1 (b1 : StageLLM) (pdf : Option String) (user : List (String × Json)) :
    FinancialState :=
  run_cas_parse b1 (initial_state pdf user)

/-- The Record after stage 2 of an unaborted run. -/
def stage2 (b1 b2 : StageLLM) (pdf : Option String) (user : List (String × Json)) :
    FinancialState :=
  run_portfolio_analyzer b2 (stage1 b1 pdf user)

/-- The Record after stage 3 of an unaborted run. -/
def stage3 (b1 b2 : StageLLM) (m : MarketOracle) (pdf : Option String)
    (user : List (String × Json)) : FinancialState :=
  run_market_outlook m (stage2 b1 b2 pdf user)

/-- The Record after stage 4 of an unaborted run. -/
def stage4 (b1 b2 : StageLLM) (m : MarketOracle) (b4 : StageLLM)
    (pdf : Option String) (user : List (String × Json)) : FinancialState :=
  run_risk_profiler b4 (stage3 b1 b2 m pdf user)

/-- The ten marker substrings whose presence excludes an error from the
fatal list in `upload_cas_file`. -/
def advisory_markers : List String :=
  ["timeout", "api key", "fallback", "mock data", "no portfolio holdings",
   "no holdings available", "no field", "analysis", "parse", "json"]

/-- The four marker substrings that surface an error as a warning in
`upload_cas_file`. -/
def warning_markers : List String :=
  ["timeout", "api key", "fallback", "mock data"]

/-- The `fatal_errors` list computed in `upload_cas_file`. -/
def fatal_errors_of (errors : List String) : List String :=
  errors.filter (fun e => !(advisory_markers.any (fun k => contains_lower e k)))

/-- The `warnings` list computed in `upload_cas_file`. -/
def warnings_of (errors : List String) : List String :=
  errors.filter (fun e => warning_markers.any (fun k => contains_lower e k))

/-- The verdict of `upload_cas_file`: success exactly when `fatal_errors`
is empty (otherwise a 400 error response is returned). -/
def upload_verdict_success (errors : List String) : Bool :=
  (fatal_errors_of errors).isEmpty

/-- The Record after stage 5 of an unaborted run. -/
def stage5 (b1 b2 : StageLLM) (m : MarketOracle) (b4 b5 : StageLLM)
    (pdf : Option String) (user : List (String × Json)) : FinancialState :=
  run_financial_advisor b5 (stage4 b1 b2 m b4 pdf user)

/-- JSON item for a 600-value equity holding. -/
def c8_holding_json_1 : Json :=
  Json.obj [("symbol", Json.str "AAA"), ("name", Json.str "Alpha"),
    ("quantity", Json.num 10), ("current_value", Json.num 600),
    ("asset_type", Json.str "equity"), ("sector", Json.str "Energy")]

/-- JSON item for a 400-value debt holding. -/
def c8_holding_json_2 : Json :=
  Json.obj [("symbol", Json.str "BBB"), ("name", Json.str "Beta"),
    ("quantity", Json.num 4), ("current_value", Json.num 400),
    ("asset_type", Json.str "debt")]

/-- A capability response carrying the two holdings but no total. -/
def c8_response_without_total : Json :=
  Json.obj [("holdings", Json.arr [c8_holding_json_1, c8_holding_json_2])]

/-- The Record after the extraction stage on that response. -/
def c8_record : FinancialState :=
  cas_parser_process (StageLLM.good c8_response_without_total)
    { pdf_content := some "cas text" }

/-- The 600-value equity holding as parsed. -/
def c8w_holding_1 : Holding :=
  { symbol := "AAA", name := "Alpha", quantity := 10, current_value := 600,
    sector := some "Energy", asset_type := "equity" }

/-- The 400-value debt holding as parsed. -/
def c8w_holding_2 : Holding :=
  { symbol := "BBB", name := "Beta", quantity := 4, current_value := 400,
    sector := none, asset_type := "debt" }

/-- A capability response carrying the two holdings and a reported total. -/
def c8w_fields : List (String × Json) :=
  [("holdings", Json.arr [c8_holding_json_1, c8_holding_json_2]),
   ("total_value", Json.num 1000)]

/-- A debt holding carrying a sector field. -/
def c9_debt_holding : Holding :=
  { symbol := "D1", name := "DebtFund", quantity := 10, current_value := 500,
    sector := some "Finance", asset_type := "debt" }

/-- A gold holding carrying a sector field. -/
def c9_gold_holding : Holding :=
  { symbol := "G1", name := "GoldFund", quantity := 5, current_value := 300,
    sector := some "Commodities", asset_type := "gold" }

/-- The final report generated from a fresh Record and empty advice. -/
def sample_report : FinalReport :=
  { ps_total_value := 0, ps_asset_allocation := [], ps_sector_allocation := [],
    ps_holdings_count := 0, ra_risk_tolerance := "moderate", ra_risk_score := 0,
    ra_investment_horizon := "medium", mc_sentiment := "neutral",
    mc_last_updated := none, recommendations_payload := Json.obj [],
    next_steps := Json.arr [], priority_actions := Json.arr [] }

theorem update_state_completed_eq (n : String) (s : FinancialState) :
    (update_state n s).completed_agents = update_completed n s.completed_agents := by
  unfold update_state update_completed
  split <;> rfl

theorem update_state_errors (n : String) (s : FinancialState) :
    (update_state n s).errors = s.errors := by
  unfold update_state
  split <;> rfl

theorem update_state_portfolio (n : String) (s : FinancialState) :
    (update_state n s).portfolio = s.portfolio := by
  unfold update_state
  split <;> rfl

theorem update_state_risk_profile (n : String) (s : FinancialState) :
    (update_state n s).risk_profile = s.risk_profile := by
  unfold update_state
  split <;> rfl

theorem cas_parser_body_completed (b : StageLLM) (s : FinancialState) :
    (cas_parser_body b s).completed_agents = s.completed_agents := by
  unfold cas_parser_body
  repeat' split
  all_goals rfl

theorem portfolio_analyzer_body_completed (b : StageLLM) (s : FinancialState) :
    (portfolio_analyzer_body b s).completed_agents = s.completed_agents := by
  unfold portfolio_analyzer_body
  repeat' split
  all_goals rfl

theorem market_failure_completed (m : MarketOracle) (s : FinancialState)
    (msg : String) : (market_failure m s msg).completed_agents = s.completed_agents := by
  rfl

theorem market_outlook_apply_completed (m : MarketOracle) (s : FinancialState)
    (j : Json) : (market_outlook_apply m s j).completed_agents = s.completed_agents := by
  unfold market_outlook_apply market_failure
  repeat' split
  all_goals rfl

theorem market_outlook_body_completed (m : MarketOracle) (s : FinancialState) :
    (market_outlook_body m s).completed_agents = s.completed_agents := by
  unfold market_outlook_body
  split
  · rfl
  · exact market_outlook_apply_completed m s _
  · exact market_outlook_apply_completed m s _

theorem risk_apply_assessment_completed (s : FinancialState) (a : Json) :
    (risk_apply_assessment s a).completed_agents = s.completed_agents := by
  unfold risk_apply_assessment
  repeat' split
  all_goals rfl

theorem risk_profiler_body_completed (b : StageLLM) (s : FinancialState) :
    (risk_profiler_body b s).completed_agents = s.completed_agents := by
  unfold risk_profiler_body
  split
  · rfl
  · exact risk_apply_assessment_completed s _
  · exact risk_apply_assessment_completed s _

theorem financial_advisor_failure_completed (s : FinancialState) (msg : String) :
    (financial_advisor_failure s msg).completed_agents = s.completed_agents := by
  rfl

theorem financial_advisor_apply_completed (s : FinancialState) (j : Json) :
    (financial_advisor_apply s j).completed_agents = s.completed_agents := by
  unfold financial_advisor_apply financial_advisor_failure
  repeat' split
  all_goals rfl

theorem financial_advisor_body_completed (b : StageLLM) (s : FinancialState) :
    (financial_advisor_body b s).completed_agents = s.completed_agents := by
  unfold financial_advisor_body
  split
  · rfl
  · exact financial_advisor_apply_completed s _
  · exact financial_advisor_apply_completed s _

theorem cas_parser_process_completed (b : StageLLM) (s : FinancialState) :
    (cas_parser_process b s).completed_agents =
      update_completed "cas_parser" s.completed_agents := by
  unfold cas_parser_process
  rw [update_state_completed_eq, cas_parser_body_completed]

theorem portfolio_analyzer_process_completed (b : StageLLM) (s : FinancialState) :
    (portfolio_analyzer_process b s).completed_agents =
      update_completed "portfolio_analyzer" s.completed_agents := by
  unfold portfolio_analyzer_process
  rw [update_state_completed_eq, portfolio_analyzer_body_completed]

theorem market_outlook_process_completed (m : MarketOracle) (s : FinancialState) :
    (market_outlook_process m s).completed_agents =
      update_completed "market_outlook" s.completed_agents := by
  unfold market_outlook_process
  rw [update_state_completed_eq, market_outlook_body_completed]

theorem risk_profiler_process_completed (b : StageLLM) (s : FinancialState) :
    (risk_profiler_process b s).completed_agents =
      update_completed "risk_profiler" s.completed_agents := by
  unfold risk_profiler_process
  rw [update_state_completed_eq, risk_profiler_body_completed]

theorem financial_advisor_process_completed (b : StageLLM) (s : FinancialState) :
    (financial_advisor_process b s).completed_agents =
      update_completed "financial_advisor" s.completed_agents := by
  unfold financial_advisor_process
  rw [update_state_completed_eq, financial_advisor_body_completed]

theorem run_cas_parse_completed (b : StageLLM) (s : FinancialState) :
    (run_cas_parse b s).completed_agents =
      update_completed "cas_parser" s.completed_agents := by
  unfold run_cas_parse
  rw [cas_parser_process_completed]

theorem run_portfolio_analyzer_completed (b : StageLLM) (s : FinancialState) :
    (run_portfolio_analyzer b s).completed_agents =
      update_completed "portfolio_analyzer" s.completed_agents := by
  unfold run_portfolio_analyzer
  rw [portfolio_analyzer_process_completed]

theorem run_market_outlook_completed (m : MarketOracle) (s : FinancialState) :
    (run_market_outlook m s).completed_agents =
      update_completed "market_outlook" s.completed_agents := by
  unfold run_market_outlook
  rw [market_outlook_process_completed]

theorem run_risk_profiler_completed (b : StageLLM) (s : FinancialState) :
    (run_risk_profiler b s).completed_agents =
      update_completed "risk_profiler" s.completed_agents := by
  unfold run_risk_profiler
  rw [risk_profiler_process_completed]

theorem run_financial_advisor_completed (b : StageLLM) (s : FinancialState) :
    (run_financial_advisor b s).completed_agents =
      update_completed "financial_advisor" s.completed_agents := by
  unfold run_financial_advisor
  rw [financial_advisor_process_completed]

theorem pipeline_eq (b1 b2 : StageLLM) (m : MarketOracle) (b4 b5 : StageLLM)
    (pdf : Option String) (user : List (String × Json)) :
    process_financial_planning_sync b1 b2 m b4 b5 pdf user =
      if (stage1 b1 pdf user).errors = [] then
        if (stage2 b1 b2 pdf user).errors = [] then
          if (stage3 b1 b2 m pdf user).errors = [] then
            if (stage4 b1 b2 m b4 pdf user).errors = [] then
              { stage5 b1 b2 m b4 b5 pdf user with analysis_complete := true }
            else { stage4 b1 b2 m b4 pdf user with analysis_complete := true }
          else { stage3 b1 b2 m pdf user with analysis_complete := true }
        else { stage2 b1 b2 pdf user with analysis_complete := true }
      else { stage1 b1 pdf user with analysis_complete := true } := by
  unfold process_financial_planning_sync stage5 stage4 stage3 stage2 stage1
  by_cases h1 : (run_cas_parse b1 (initial_state pdf user)).errors = []
  · by_cases h2 : (run_portfolio_analyzer b2
        (run_cas_parse b1 (initial_state pdf user))).errors = []
    · by_cases h3 : (run_market_outlook m (run_portfolio_analyzer b2
          (run_cas_parse b1 (initial_state pdf user)))).errors = []
      · by_cases h4 : (run_risk_profiler b4 (run_market_outlook m
            (run_portfolio_analyzer b2
              (run_cas_parse b1 (initial_state pdf user))))).errors = []
        · simp only [if_pos h1, if_pos h2, if_pos h3, if_pos h4]
        · simp only [if_pos h1, if_pos h2, if_pos h3, if_neg h4]
      · simp only [if_pos h1, if_pos h2, if_neg h3]
    · simp only [if_pos h1, if_neg h2]
  · simp only [if_neg h1]

theorem stage1_completed (b1 : StageLLM) (pdf : Option String)
    (user : List (String × Json)) :
    (stage1 b1 pdf user).completed_agents = ["cas_parser"] := by
  unfold stage1
  rw [run_cas_parse_completed]
  rfl

theorem stage2_completed (b1 b2 : StageLLM) (pdf : Option String)
    (user : List (String × Json)) :
    (stage2 b1 b2 pdf user).completed_agents = ["cas_parser", "portfolio_analyzer"] := by
  unfold stage2
  rw [run_portfolio_analyzer_completed, stage1_completed]
  decide

theorem stage3_completed (b1 b2 : StageLLM) (m : MarketOracle) (pdf : Option String)
    (user : List (String × Json)) :
    (stage3 b1 b2 m pdf user).completed_agents =
      ["cas_parser", "portfolio_analyzer", "market_outlook"] := by
  unfold stage3
  rw [run_market_outlook_completed, stage2_completed]
  decide

theorem stage4_completed (b1 b2 : StageLLM) (m : MarketOracle) (b4 : StageLLM)
    (pdf : Option String) (user : List (String × Json)) :
    (stage4 b1 b2 m b4 pdf user).completed_agents =
      ["cas_parser", "portfolio_analyzer", "market_outlook", "risk_profiler"] := by
  unfold stage4
  rw [run_risk_profiler_completed, stage3_completed]
  decide

theorem stage5_completed (b1 b2 : StageLLM) (m : MarketOracle) (b4 b5 : StageLLM)
    (pdf : Option String) (user : List (String × Json)) :
    (stage5 b1 b2 m b4 b5 pdf user).completed_agents =
      ["cas_parser", "portfolio_analyzer", "market_outlook", "risk_profiler",
       "financial_advisor"] := by
  unfold stage5
  rw [run_financial_advisor_completed, stage4_completed]
  decide

/-- Claim C1: the claim states that `analysis_complete` is true only if
`completed_agents` has length 5, and in particular is false whenever the
extraction stage appended an error.  The code violates this: on an empty
input text the extraction stage appends an error, every later stage is
skipped, and the orchestrator still sets `analysis_complete := true`
unconditionally.  This theorem evaluates the embedded pipeline at that
failing input. -/
theorem c1_analysis_complete_divergence :
    (process_financial_planning_sync (StageLLM.badJson "x") (StageLLM.badJson "x")
        { llm := StageLLM.badJson "x" } (StageLLM.badJson "x") (StageLLM.badJson "x")
        (some "") []).errors = ["No PDF content provided for parsing"] ∧
    (process_financial_planning_sync (StageLLM.badJson "x") (StageLLM.badJson "x")
        { llm := StageLLM.badJson "x" } (StageLLM.badJson "x") (StageLLM.badJson "x")
        (some "") []).completed_agents = ["cas_parser"] ∧
    (process_financial_planning_sync (StageLLM.badJson "x") (StageLLM.badJson "x")
        { llm := StageLLM.badJson "x" } (StageLLM.badJson "x") (StageLLM.badJson "x")
        (some "") []).completed_agents.length = 1 ∧
    (process_financial_planning_sync (StageLLM.badJson "x") (StageLLM.badJson "x")
        { llm := StageLLM.badJson "x" } (StageLLM.badJson "x") (StageLLM.badJson "x")
        (some "") []).analysis_complete = true := by
  exact ⟨rfl, rfl, rfl, rfl⟩

/-- Claim C2, counterexample to "returns the Record as-is": after the
extraction stage appends an error on empty input, the orchestrator does not
return the Record as it stood at the short-circuit point — it still flips
`analysis_complete` to true (the defect recorded at C1). -/
theorem c2_as_is_counterexample :
    (stage1 (StageLLM.badJson "boom") (some "") []).errors ≠ [] ∧
    process_financial_planning_sync (StageLLM.badJson "boom") (StageLLM.badJson "b")
        { llm := StageLLM.badJson "c" } (StageLLM.badJson "d") (StageLLM.badJson "e")
        (some "") [] ≠ stage1 (StageLLM.badJson "boom") (some "") [] := by
  refine ⟨by decide, fun h => ?_⟩
  have h2 := congrArg FinancialState.analysis_complete h
  exact absurd h2 (by decide)

/-- Claim C2 (amended: the returned Record is the short-circuit state except
that `analysis_complete` is still set to true): once any stage has appended
an error, the orchestrator evaluates `errors` before each later stage and
never runs it — the run's final Record is exactly the Record of the stage at
which the abort happened, with only the completion flag changed. -/
theorem c2_error_short_circuit (b1 b2 : StageLLM) (m : MarketOracle) (b4 b5 : StageLLM)
    (pdf : Option String) (user : List (String × Json)) :
    ((stage1 b1 pdf user).errors ≠ [] →
      process_financial_planning_sync b1 b2 m b4 b5 pdf user =
        { stage1 b1 pdf user with analysis_complete := true }) ∧
    ((stage1 b1 pdf user).errors = [] → (stage2 b1 b2 pdf user).errors ≠ [] →
      process_financial_planning_sync b1 b2 m b4 b5 pdf user =
        { stage2 b1 b2 pdf user with analysis_complete := true }) ∧
    ((stage1 b1 pdf user).errors = [] → (stage2 b1 b2 pdf user).errors = [] →
      (stage3 b1 b2 m pdf user).errors ≠ [] →
      process_financial_planning_sync b1 b2 m b4 b5 pdf user =
        { stage3 b1 b2 m pdf user with analysis_complete := true }) ∧
    ((stage1 b1 pdf user).errors = [] → (stage2 b1 b2 pdf user).errors = [] →
      (stage3 b1 b2 m pdf user).errors = [] → (stage4 b1 b2 m b4 pdf user).errors ≠ [] →
      process_financial_planning_sync b1 b2 m b4 b5 pdf user =
        { stage4 b1 b2 m b4 pdf user with analysis_complete := true }) := by
  refine ⟨?_, ?_, ?_, ?_⟩
  · intro h1
    rw [pipeline_eq, if_neg h1]
  · intro h1 h2
    rw [pipeline_eq, if_pos h1, if_neg h2]
  · intro h1 h2 h3
    rw [pipeline_eq, if_pos h1, if_pos h2, if_neg h3]
  · intro h1 h2 h3 h4
    rw [pipeline_eq, if_pos h1, if_pos h2, if_pos h3, if_neg h4]

/-- Claim C2, witness: on empty input text the extraction stage appends an
error and the pipeline returns that stage's Record with only the completion
flag changed. -/
theorem c2_error_short_circuit_witness :
    (stage1 (StageLLM.badJson "w") (some "") []).errors ≠ [] ∧
    process_financial_planning_sync (StageLLM.badJson "w") (StageLLM.badJson "w2")
        { llm := StageLLM.badJson "w3" } (StageLLM.badJson "w4") (StageLLM.badJson "w5")
        (some "") [] =
      { stage1 (StageLLM.badJson "w") (some "") [] with analysis_complete := true } :=
  ⟨by decide,
    (c2_error_short_circuit (StageLLM.badJson "w") (StageLLM.badJson "w2")
      { llm := StageLLM.badJson "w3" } (StageLLM.badJson "w4") (StageLLM.badJson "w5")
      (some "") []).1 (by decide)⟩

/-- Claim C5: every stage invocation appends its own name to
`completed_agents` exactly once on every outcome path (whenever the name is
not already present), and every Record returned by the pipeline has a
duplicate-free completed list of length at most 5. -/
theorem c5_completed_agents_invariant :
    (∀ (b : StageLLM) (s : FinancialState), "cas_parser" ∉ s.completed_agents →
      (cas_parser_process b s).completed_agents = s.completed_agents ++ ["cas_parser"]) ∧
    (∀ (b : StageLLM) (s : FinancialState), "portfolio_analyzer" ∉ s.completed_agents →
      (portfolio_analyzer_process b s).completed_agents =
        s.completed_agents ++ ["portfolio_analyzer"]) ∧
    (∀ (m : MarketOracle) (s : FinancialState), "market_outlook" ∉ s.completed_agents →
      (market_outlook_process m s).completed_agents =
        s.completed_agents ++ ["market_outlook"]) ∧
    (∀ (b : StageLLM) (s : FinancialState), "risk_profiler" ∉ s.completed_agents →
      (risk_profiler_process b s).completed_agents =
        s.completed_agents ++ ["risk_profiler"]) ∧
    (∀ (b : StageLLM) (s : FinancialState), "financial_advisor" ∉ s.completed_agents →
      (financial_advisor_process b s).completed_agents =
        s.completed_agents ++ ["financial_advisor"]) ∧
    (∀ (b1 b2 : StageLLM) (m : MarketOracle) (b4 b5 : StageLLM)
        (pdf : Option String) (user : List (String × Json)),
      (process_financial_planning_sync b1 b2 m b4 b5 pdf user).completed_agents.Nodup ∧
      (process_financial_planning_sync b1 b2 m b4 b5 pdf user).completed_agents.length ≤ 5) := by
  refine ⟨?_, ?_, ?_, ?_, ?_, ?_⟩
  · intro b s h
    rw [cas_parser_process_completed]
    unfold update_completed
    rw [if_neg h]
  · intro b s h
    rw [portfolio_analyzer_process_completed]
    unfold update_completed
    rw [if_neg h]
  · intro m s h
    rw [market_outlook_process_completed]
    unfold update_completed
    rw [if_neg h]
  · intro b s h
    rw [risk_profiler_process_completed]
    unfold update_completed
    rw [if_neg h]
  · intro b s h
    rw [financial_advisor_process_completed]
    unfold update_completed
    rw [if_neg h]
  · intro b1 b2 m b4 b5 pdf user
    rw [pipeline_eq]
    split_ifs
    · show (stage5 b1 b2 m b4 b5 pdf user).completed_agents.Nodup ∧
        (stage5 b1 b2 m b4 b5 pdf user).completed_agents.length ≤ 5
      rw [stage5_completed]
      exact ⟨by decide, by decide⟩
    · show (stage4 b1 b2 m b4 pdf user).completed_agents.Nodup ∧
        (stage4 b1 b2 m b4 pdf user).completed_agents.length ≤ 5
      rw [stage4_completed]
      exact ⟨by decide, by decide⟩
    · show (stage3 b1 b2 m pdf user).completed_agents.Nodup ∧
        (stage3 b1 b2 m pdf user).completed_agents.length ≤ 5
      rw [stage3_completed]
      exact ⟨by decide, by decide⟩
    · show (stage2 b1 b2 pdf user).completed_agents.Nodup ∧
        (stage2 b1 b2 pdf user).completed_agents.length ≤ 5
      rw [stage2_completed]
      exact ⟨by decide, by decide⟩
    · show (stage1 b1 pdf user).completed_agents.Nodup ∧
        (stage1 b1 pdf user).completed_agents.length ≤ 5
      rw [stage1_completed]
      exact ⟨by decide, by decide⟩

/-- Claim C5, witness: on a fresh Record the extraction stage appends its
name exactly once, and a concrete full run has a duplicate-free completed
list of length at most 5. -/
theorem c5_completed_agents_invariant_witness :
    ("cas_parser" ∉ ({} : FinancialState).completed_agents) ∧
    (cas_parser_process (StageLLM.badJson "v") ({} : FinancialState)).completed_agents =
      ({} : FinancialState).completed_agents ++ ["cas_parser"] :=
  ⟨by decide,
    c5_completed_agents_invariant.1 (StageLLM.badJson "v") ({} : FinancialState)
      (by decide)⟩

/-- Claim C3, counterexample to the two-class partition: the boundary code
excludes an error containing "parse"/"json" from the fatal list but also
does not surface it as a warning (the warning filter uses only the four
markers timeout/api key/fallback/mock data), so this error falls in neither
class while the verdict is still success — the two classes do not cover the
error list. -/
theorem c3_partition_counterexample :
    (["Failed to parse LLM response as JSON: delimiter"] : List String) ≠ [] ∧
    fatal_errors_of ["Failed to parse LLM response as JSON: delimiter"] = [] ∧
    warnings_of ["Failed to parse LLM response as JSON: delimiter"] = [] ∧
    upload_verdict_success ["Failed to parse LLM response as JSON: delimiter"] = true := by
  exact ⟨by decide, by decide, by decide, by decide⟩

/-- Claim C3 (amended: two different marker lists are used — an error is
fatal exactly when it contains none of the ten exclusion markers, and it is
surfaced as a warning exactly when it contains one of the four warning
markers; the two classes are disjoint but need not cover the list; the
verdict is success exactly when the fatal class is empty). -/
theorem c3_classifier_amended (errors : List String) (e : String) :
    (e ∈ fatal_errors_of errors ↔
      e ∈ errors ∧ ∀ k ∈ advisory_markers, contains_lower e k = false) ∧
    (e ∈ warnings_of errors ↔
      e ∈ errors ∧ ∃ k ∈ warning_markers, contains_lower e k = true) ∧
    (e ∈ warnings_of errors → e ∉ fatal_errors_of errors) ∧
    (upload_verdict_success errors = true ↔ fatal_errors_of errors = []) := by
  have hmem_fatal : e ∈ fatal_errors_of errors ↔
      e ∈ errors ∧ ∀ k ∈ advisory_markers, contains_lower e k = false := by
    unfold fatal_errors_of
    rw [List.mem_filter]
    constructor
    · rintro ⟨he, hp⟩
      refine ⟨he, ?_⟩
      intro k hk
      by_contra hne
      have hk' : contains_lower e k = true := by
        cases hc : contains_lower e k
        · exact absurd hc hne
        · rfl
      have : advisory_markers.any (fun x => contains_lower e x) = true :=
        List.any_eq_true.mpr ⟨k, hk, hk'⟩
      rw [this] at hp
      exact Bool.noConfusion hp
    · rintro ⟨he, hall⟩
      refine ⟨he, ?_⟩
      have : advisory_markers.any (fun x => contains_lower e x) = false := by
        by_contra hne
        have : advisory_markers.any (fun x => contains_lower e x) = true := by
          cases hc : advisory_markers.any (fun x => contains_lower e x)
          · exact absurd hc hne
          · rfl
        obtain ⟨k, hk, hk'⟩ := List.any_eq_true.mp this
        rw [hall k hk] at hk'
        exact Bool.noConfusion hk'
      rw [this]
      rfl
  have hmem_warn : e ∈ warnings_of errors ↔
      e ∈ errors ∧ ∃ k ∈ warning_markers, contains_lower e k = true := by
    unfold warnings_of
    rw [List.mem_filter]
    constructor
    · rintro ⟨he, hp⟩
      exact ⟨he, List.any_eq_true.mp hp⟩
    · rintro ⟨he, hex⟩
      exact ⟨he, List.any_eq_true.mpr hex⟩
  have hsub : ∀ k ∈ warning_markers, k ∈ advisory_markers := by decide
  refine ⟨hmem_fatal, hmem_warn, ?_, ?_⟩
  · intro hw hf
    obtain ⟨_, k, hk, hk'⟩ := hmem_warn.mp hw
    have := (hmem_fatal.mp hf).2 k (hsub k hk)
    rw [this] at hk'
    exact Bool.noConfusion hk'
  · unfold upload_verdict_success
    exact List.isEmpty_iff

/-- Claim C3, witness: an error mentioning "fallback" is surfaced as a
warning and excluded from the fatal list. -/
theorem c3_classifier_amended_witness :
    ("Market analysis failed: fallback used" ∈
      warnings_of ["Market analysis failed: fallback used"]) ∧
    ("Market analysis failed: fallback used" ∉
      fatal_errors_of ["Market analysis failed: fallback used"]) := by
  have h := c3_classifier_amended ["Market analysis failed: fallback used"]
    "Market analysis failed: fallback used"
  have hw := h.2.1.mpr ⟨by decide, "fallback", by decide, by decide⟩
  exact ⟨hw, h.2.2.1 hw⟩

/-- Claim C4, counterexample: with the credential missing (a failure the
claim says is absorbed), the invoker raises (returns an error) instead of
returning the stage-named canned fallback response. -/
theorem c4_no_fallback_counterexample :
    invoke_llm "cas_parser" false (LLMOutcome.success "some text") =
      Except.error (llm_fail_msg "cas_parser" "Google API key not configured") ∧
    invoke_llm "cas_parser" false (LLMOutcome.success "some text") ≠
      Except.ok (get_fallback_response "cas_parser") := by
  exact ⟨rfl, fun h => nomatch h⟩

/-- Claim C4 (amended: the invoker implements the strict policy — every
failure, whether missing credential, timeout, transport error, or blank
response, raises to the calling stage with no retry and no fallback
substitution; the canned fallback helper exists but is never invoked). -/
theorem c4_strict_policy_amended (name : String) :
    (∀ o : LLMOutcome, invoke_llm name false o =
      Except.error (llm_fail_msg name "Google API key not configured")) ∧
    (invoke_llm name true LLMOutcome.timeoutFail =
      Except.error (llm_fail_msg name "LLM call timed out after 30 seconds")) ∧
    (∀ msg : String, invoke_llm name true (LLMOutcome.transportFail msg) =
      Except.error (llm_fail_msg name msg)) ∧
    (∀ content : String, py_strip content = "" →
      invoke_llm name true (LLMOutcome.success content) =
        Except.error (llm_fail_msg name "LLM returned empty response")) := by
  refine ⟨fun o => rfl, rfl, fun msg => rfl, fun content h => ?_⟩
  have hc : (content == "" || py_strip content == "") = true := by
    rw [h]
    simp
  show (if content == "" || py_strip content == "" then
      Except.error (llm_fail_msg name "LLM returned empty response")
    else Except.ok (clean_llm_response content)) =
    Except.error (llm_fail_msg name "LLM returned empty response")
  rw [if_pos hc]

/-- Claim C4, witness: a whitespace-only response is a blank-response
failure and the invoker raises the wrapped empty-response error. -/
theorem c4_strict_policy_amended_witness :
    py_strip "   " = "" ∧
    invoke_llm "risk_profiler" true (LLMOutcome.success "   ") =
      Except.error (llm_fail_msg "risk_profiler" "LLM returned empty response") :=
  ⟨by decide, (c4_strict_policy_amended "risk_profiler").2.2.2 "   " (by decide)⟩

/-- Claim C7, counterexample: a response that is non-blank raw but blank
after fence stripping is returned as the blank cleaned string, not rejected
as an empty response — the blank check runs on the raw text before
cleaning. -/
theorem c7_blank_after_cleaning_counterexample :
    py_strip "\n```" ≠ "" ∧
    clean_llm_response "\n```" = "" ∧
    invoke_llm "market_outlook" true (LLMOutcome.success "\n```") = Except.ok "" := by
  exact ⟨by decide, rfl, rfl⟩

/-- Claim C7 (amended: the invoker fails with the empty-response error
exactly when the raw response text is blank before cleaning; any raw
non-blank response is returned fence-stripped and whitespace-stripped, even
when that cleaned text is blank). -/
theorem c7_blank_check_amended (name content : String) :
    (invoke_llm name true (LLMOutcome.success content) =
        Except.error (llm_fail_msg name "LLM returned empty response") ↔
      py_strip content = "") ∧
    (py_strip content ≠ "" →
      invoke_llm name true (LLMOutcome.success content) =
        Except.ok (clean_llm_response content)) := by
  have hbody : invoke_llm name true (LLMOutcome.success content) =
      (if content == "" || py_strip content == "" then
        Except.error (llm_fail_msg name "LLM returned empty response")
      else Except.ok (clean_llm_response content)) := rfl
  have hempty : content = "" → py_strip content = "" := by
    intro h
    rw [h]
    rfl
  constructor
  · constructor
    · intro h
      by_cases hc : (content == "" || py_strip content == "") = true
      · rcases Bool.or_eq_true_iff.mp hc with h1 | h2
        · exact hempty (beq_iff_eq.mp h1)
        · exact beq_iff_eq.mp h2
      · rw [hbody, if_neg hc] at h
        exact Except.noConfusion h
    · intro h
      have hc : (content == "" || py_strip content == "") = true := by
        rw [h]
        simp
      rw [hbody, if_pos hc]
  · intro h
    have hc : (content == "" || py_strip content == "") = false := by
      refine Bool.or_eq_false_iff.mpr ⟨?_, ?_⟩
      · cases he : content == ""
        · rfl
        · exact absurd (hempty (beq_iff_eq.mp he)) h
      · cases he : py_strip content == ""
        · rfl
        · exact absurd (beq_iff_eq.mp he) h
    rw [hbody, if_neg (by rw [hc]; exact Bool.false_ne_true)]

/-- Claim C7, witness: a fenced JSON payload is non-blank raw and is
returned with the fences and surrounding whitespace stripped. -/
theorem c7_blank_check_amended_witness :
    py_strip "```json\nok\n```" ≠ "" ∧
    invoke_llm "cas_parser" true (LLMOutcome.success "```json\nok\n```") =
      Except.ok (clean_llm_response "```json\nok\n```") ∧
    clean_llm_response "```json\nok\n```" = "ok" :=
  ⟨by decide, (c7_blank_check_amended "cas_parser" "```json\nok\n```").2 (by decide),
    by decide⟩

/-- Claim C6, counterexample: on a well-formed response reporting a risk
score of 15, the stage stores 15 — the score is not normalized into
[0, 10]. -/
theorem c6_score_counterexample :
    (risk_profiler_process (StageLLM.good (Json.obj [("risk_score", Json.num 15)]))
        ({} : FinancialState)).risk_profile.score = 15 ∧
    ¬ ((risk_profiler_process (StageLLM.good (Json.obj [("risk_score", Json.num 15)]))
        ({} : FinancialState)).risk_profile.score ≤ 10) := by
  exact ⟨rfl, by decide⟩

/-- Claim C6 (amended: the stage stores the response's risk score verbatim —
no normalization into [0, 10] is performed — or the fixed default 5.0 on
every failure path: invoker error, undecodable JSON, or a response whose
fields fail validation). -/
theorem c6_score_not_normalized (s : FinancialState) (b : StageLLM) :
    (∃ a rp, b = StageLLM.good a ∧ build_risk_profile a = some rp ∧
      (risk_profiler_process b s).risk_profile.score = rp.score) ∨
    (risk_profiler_process b s).risk_profile.score = 5 := by
  cases b with
  | raiseErr m =>
      right
      unfold risk_profiler_process
      rw [update_state_risk_profile]
      rfl
  | badJson m =>
      right
      unfold risk_profiler_process
      rw [update_state_risk_profile]
      rfl
  | good j =>
      cases hb : build_risk_profile j with
      | none =>
          right
          unfold risk_profiler_process
          rw [update_state_risk_profile]
          show (risk_apply_assessment s j).risk_profile.score = 5
          unfold risk_apply_assessment
          rw [hb]
          rfl
      | some rp =>
          left
          refine ⟨j, rp, rfl, hb, ?_⟩
          unfold risk_profiler_process
          rw [update_state_risk_profile]
          show (risk_apply_assessment s j).risk_profile.score = rp.score
          unfold risk_apply_assessment
          rw [hb]

/-- Claim C8, counterexample: on a run whose parsed holdings are exactly the
600-equity and 400-debt holdings but whose response omits the total field,
the asset allocation is 60/40 as claimed, yet the Record's total value is
the response default 0.0, not 1000 — the total is never recomputed from the
holdings. -/
theorem c8_total_value_counterexample :
    c8_record.portfolio.holdings = [c8w_holding_1, c8w_holding_2] ∧
    c8_record.portfolio.total_value = 0 ∧
    c8_record.portfolio.total_value ≠ 1000 := by
  exact ⟨rfl, rfl, by decide⟩

/-- Claim C8 (amended: for parsed holdings of 600 (equity) and 400 (debt)
the extraction stage computes asset_allocation = {equity: 60, debt: 40},
while the Record's total_value equals whatever total the response reports —
1000 exactly when the response says 1000 — and is not recomputed from the
holdings). -/
theorem c8_allocation_amended (s : FinancialState) (fs : List (String × Json))
    (hj1 hj2 : Json) (h1 h2 : Holding) (tv : ℚ)
    (hpdf : pdf_missing s = false)
    (hl : fs.lookup "holdings" = some (Json.arr [hj1, hj2]))
    (htv : fs.lookup "total_value" = some (Json.num tv))
    (hp1 : parse_holding hj1 = some h1) (hp2 : parse_holding hj2 = some h2)
    (hv1 : h1.current_value = 600) (ha1 : h1.asset_type = "equity")
    (hv2 : h2.current_value = 400) (ha2 : h2.asset_type = "debt") :
    (cas_parser_process (StageLLM.good (Json.obj fs)) s).portfolio.asset_allocation =
      [("equity", 60), ("debt", 40)] ∧
    (cas_parser_process (StageLLM.good (Json.obj fs)) s).portfolio.total_value = tv := by
  have hci : cas_interpret_obj fs = Except.ok ([h1, h2], tv) := by
    unfold cas_interpret_obj dict_get_d
    rw [hl, htv]
    simp [List.mapM, List.mapM.loop, hp1, hp2, coerce_float]
  have hport : (cas_parser_process (StageLLM.good (Json.obj fs)) s).portfolio =
      { holdings := [h1, h2], total_value := tv,
        asset_allocation := calculate_asset_allocation [h1, h2],
        sector_allocation := calculate_sector_allocation [h1, h2],
        analysis := none } := by
    unfold cas_parser_process
    rw [update_state_portfolio]
    unfold cas_parser_body
    rw [if_neg (by rw [hpdf]; exact Bool.false_ne_true)]
    show ((match cas_interpret_obj fs with
      | Except.ok (holdings, tv') =>
          { s with portfolio :=
              { holdings := holdings, total_value := tv',
                asset_allocation := calculate_asset_allocation holdings,
                sector_allocation := calculate_sector_allocation holdings,
                analysis := none } }
      | Except.error m =>
          { s with errors := s.errors ++ ["CAS parsing failed: " ++ m] } :
        FinancialState)).portfolio = _
    rw [hci]
  have halloc : calculate_asset_allocation [h1, h2] = [("equity", 60), ("debt", 40)] := by
    unfold calculate_asset_allocation accum_by_key add_to_alloc
    rw [if_neg (by simp)]
    simp [hv1, hv2, ha1, ha2]
    norm_num
  constructor
  · rw [hport]
    exact halloc
  · rw [hport]

/-- Claim C8, witness: when the response reports the two holdings together
with total 1000, the allocation is 60/40 and the stored total is 1000. -/
theorem c8_allocation_amended_witness :
    pdf_missing ({ pdf_content := some "cas" } : FinancialState) = false ∧
    (cas_parser_process (StageLLM.good (Json.obj c8w_fields))
        ({ pdf_content := some "cas" } : FinancialState)).portfolio.asset_allocation =
      [("equity", 60), ("debt", 40)] ∧
    (cas_parser_process (StageLLM.good (Json.obj c8w_fields))
        ({ pdf_content := some "cas" } : FinancialState)).portfolio.total_value = 1000 :=
  ⟨by decide,
    (c8_allocation_amended ({ pdf_content := some "cas" } : FinancialState) c8w_fields
      c8_holding_json_1 c8_holding_json_2 c8w_holding_1 c8w_holding_2 1000
      rfl rfl rfl rfl rfl rfl rfl rfl rfl).1,
    (c8_allocation_amended ({ pdf_content := some "cas" } : FinancialState) c8w_fields
      c8_holding_json_1 c8_holding_json_2 c8w_holding_1 c8w_holding_2 1000
      rfl rfl rfl rfl rfl rfl rfl rfl rfl).2⟩

/-- Claim C9: when no holding has asset type equity, the sector allocation
is the empty mapping regardless of the sector fields present — the
zero-equity denominator branch returns early and no division happens. -/
theorem c9_sector_allocation_empty (holdings : List Holding)
    (h : ∀ hd ∈ holdings, hd.asset_type ≠ "equity") :
    calculate_sector_allocation holdings = [] := by
  unfold calculate_sector_allocation
  rcases holdings with _ | ⟨hd0, rest⟩
  · rfl
  · rw [if_neg (by simp)]
    have hfilter : (hd0 :: rest).filter (fun x => x.asset_type == "equity") = [] := by
      rw [List.filter_eq_nil_iff]
      intro a ha
      simpa using h a ha
    rw [hfilter]
    rfl

/-- Claim C9, witness: two non-equity holdings carrying sector fields yield
an empty sector allocation. -/
theorem c9_sector_allocation_empty_witness :
    (∀ hd ∈ [c9_debt_holding, c9_gold_holding], hd.asset_type ≠ "equity") ∧
    calculate_sector_allocation [c9_debt_holding, c9_gold_holding] = [] :=
  ⟨by decide, c9_sector_allocation_empty [c9_debt_holding, c9_gold_holding] (by decide)⟩

/-- Claim C10: every fresh Record carries all four sub-records populated
with the well-typed defaults (empty holdings, total 0.0, sentiment neutral,
tolerance moderate, score 0.0, empty recommendation lists), and the final
report projects the sub-records of any Record — including one whose earlier
stages failed or were skipped — without any missing-value check. -/
theorem c10_sub_records_present :
    (∀ (pdf : Option String) (user : List (String × Json)),
      (initial_state pdf user).portfolio.holdings = [] ∧
      (initial_state pdf user).portfolio.total_value = 0 ∧
      (initial_state pdf user).market_data.market_sentiment = "neutral" ∧
      (initial_state pdf user).risk_profile.risk_tolerance = "moderate" ∧
      (initial_state pdf user).risk_profile.score = 0 ∧
      (initial_state pdf user).recommendations.asset_rebalancing = [] ∧
      (initial_state pdf user).recommendations.action_items = []) ∧
    (∀ (s : FinancialState) (fs : List (String × Json)) (r : FinalReport),
      generate_final_report s fs = some r →
        r.ps_total_value = s.portfolio.total_value ∧
        r.ra_risk_score = s.risk_profile.score ∧
        r.ra_risk_tolerance = s.risk_profile.risk_tolerance ∧
        r.mc_sentiment = s.market_data.market_sentiment) := by
  constructor
  · intro pdf user
    exact ⟨rfl, rfl, rfl, rfl, rfl, rfl, rfl⟩
  · intro s fs r h
    unfold generate_final_report at h
    split at h
    · injection h with h
      subst h
      exact ⟨rfl, rfl, rfl, rfl⟩
    · exact Option.noConfusion h

/-- Claim C10, witness: a fresh Record and empty advice yield a final report
whose portfolio summary reads the default sub-record directly. -/
theorem c10_sub_records_present_witness :
    generate_final_report ({} : FinancialState) [] = some sample_report ∧
    sample_report.ps_total_value = ({} : FinancialState).portfolio.total_value :=
  ⟨rfl, (c10_sub_records_present.2 ({} : FinancialState) [] sample_report rfl).1⟩

end FinPlanner
